import Mathlib

/-!
# Workout statistics (running, walking, swimming)

A shallow embedding of `main.go`: the measurement record `Training`, the three
variants `Running`, `Walking` and `Swimming`, the summary `InfoMessage` with its
renderer, and the driver `ReadData`.

Numbers.  A Go `float64` is modelled by `F64`: an exact rational, or one of the
three IEEE-754 special values `+Inf`, `-Inf`, `NaN`.  Arithmetic on finite values
is exact (rounding and overflow are not modelled, and the two zeros are one
value); the special values appear exactly where IEEE-754 produces them, so a
division by zero is visible in the model.  The `float64` fields of the input
records hold finite numbers and are rationals; `int` fields and `time.Duration`
(a count of nanoseconds) are integers.  The namespace `Raw` repeats the records
`Training`, `Running` and `Swimming` with `float64` fields that range over all
values of the type, `+Inf`, `-Inf` and `NaN` included; on finite fields the two
readings agree.
-/

namespace Fitness

/-! ## Floating-point values -/

/-- Value of a Go `float64`: a finite number, or an IEEE-754 special value. -/
inductive F64 where
  | fin (q : ℚ)
  | posInf
  | negInf
  | nan
  deriving DecidableEq

namespace F64

/-- Conversion `float64(n)` of an integer. -/
def ofInt (n : Int) : F64 := fin (n : ℚ)

/-- Sum `x + y` of two `float64` values. -/
def add : F64 → F64 → F64
  | fin a, fin b => fin (a + b)
  | fin _, posInf => posInf
  | fin _, negInf => negInf
  | posInf, fin _ => posInf
  | posInf, posInf => posInf
  | posInf, negInf => nan
  | negInf, fin _ => negInf
  | negInf, posInf => nan
  | negInf, negInf => negInf
  | nan, _ => nan
  | _, nan => nan

/-- Product of a finite number and an infinity whose sign is `pos`. -/
def mulInf (a : ℚ) (pos : Bool) : F64 :=
  if a = 0 then nan
  else if (0 < a) = (pos = true) then posInf else negInf

/-- Product `x * y` of two `float64` values. -/
def mul : F64 → F64 → F64
  | fin a, fin b => fin (a * b)
  | fin a, posInf => mulInf a true
  | fin a, negInf => mulInf a false
  | posInf, fin b => mulInf b true
  | negInf, fin b => mulInf b false
  | posInf, posInf => posInf
  | posInf, negInf => negInf
  | negInf, posInf => negInf
  | negInf, negInf => posInf
  | nan, _ => nan
  | _, nan => nan

/-- Quotient `x / y` of two `float64` values; a float division by zero does not
fault in Go, it yields an infinity or `NaN`. -/
def div : F64 → F64 → F64
  | fin a, fin b =>
    if b = 0 then
      (if a = 0 then nan else if 0 < a then posInf else negInf)
    else fin (a / b)
  | fin _, posInf => fin 0
  | fin _, negInf => fin 0
  | posInf, fin b => if 0 ≤ b then posInf else negInf
  | negInf, fin b => if 0 ≤ b then negInf else posInf
  | posInf, posInf => nan
  | posInf, negInf => nan
  | negInf, posInf => nan
  | negInf, negInf => nan
  | nan, _ => nan
  | _, nan => nan

instance : Add F64 := ⟨add⟩
instance : Mul F64 := ⟨mul⟩
instance : Div F64 := ⟨div⟩

/-- Power `math.Pow(x, n)` for a natural-number exponent `n`. -/
def Pow : F64 → Nat → F64
  | _, 0 => fin 1
  | fin a, n + 1 => fin (a ^ (n + 1))
  | posInf, _ + 1 => posInf
  | negInf, n + 1 => if n % 2 = 0 then negInf else posInf
  | nan, _ + 1 => nan

end F64

/-! ## Durations (`time.Duration`) -/

namespace time

/-- Go `time.Duration`: a signed count of nanoseconds. -/
abbrev Duration := Int

/-- Constant `time.Minute`, in nanoseconds. -/
def Minute : Duration := 60 * 1000000000

/-- Constant `time.Hour`, in nanoseconds. -/
def Hour : Duration := 60 * Minute

/-- Method `Duration.Hours`: the duration as a fractional number of hours (whole
hours by truncated division, plus the remainder as a fraction). -/
def Duration.Hours (d : Duration) : ℚ :=
  let hour := Int.tdiv d Hour
  let nsec := Int.tmod d Hour
  (hour : ℚ) + (nsec : ℚ) / (60 * 60 * 1000000000)

/-- Method `Duration.Minutes`: the duration as a fractional number of minutes. -/
def Duration.Minutes (d : Duration) : ℚ :=
  let min := Int.tdiv d Minute
  let nsec := Int.tmod d Minute
  (min : ℚ) + (nsec : ℚ) / (60 * 1000000000)

end time

/-! ## Constants -/

def MInKm : ℚ := 1000
def MinInHours : ℚ := 60
def LenStep : ℚ := 0.65
def CmInM : ℚ := 100

def CaloriesMeanSpeedMultiplier : ℚ := 18
def CaloriesMeanSpeedShift : ℚ := 1.79

def CaloriesWeightMultiplier : ℚ := 0.035
def CaloriesSpeedHeightMultiplier : ℚ := 0.029
def KmHInMsec : ℚ := 0.278

def SwimmingLenStep : ℚ := 1.38
def SwimmingCaloriesMeanSpeedShift : ℚ := 1.1
def SwimmingCaloriesWeightMultiplier : ℚ := 2

/-! ## The measurement record and the summary -/

/-- Record `Training`: the raw measurements common to all variants. -/
structure Training where
  TrainingType : String
  Action : Int
  LenStep : ℚ
  Duration : time.Duration
  Weight : ℚ

/-- Method `Training.distance`. -/
def Training.distance (t : Training) : F64 :=
  F64.ofInt t.Action * F64.fin t.LenStep / F64.fin MInKm

/-- Method `Training.meanSpeed`. -/
def Training.meanSpeed (t : Training) : F64 :=
  if t.Duration = 0 then F64.fin 0
  else t.distance / F64.fin (time.Duration.Hours t.Duration)

/-- Method `Training.Calories`: the base variant burns nothing. -/
def Training.Calories (_t : Training) : F64 := F64.fin 0

/-- Record `InfoMessage`: the summary of one training. -/
structure InfoMessage where
  TrainingType : String
  Duration : time.Duration
  Distance : F64
  Speed : F64
  Calories : F64

/-- Method `Training.TrainingInfo`; the `Calories` field is not set and keeps the
zero value. -/
def Training.TrainingInfo (t : Training) : InfoMessage :=
  { TrainingType := t.TrainingType
    Duration := t.Duration
    Distance := t.distance
    Speed := t.meanSpeed
    Calories := F64.fin 0 }

/-! ## Rendering -/

/-- Nearest integer to `q`, a tie going to the even neighbour. -/
def roundHalfEven (q : ℚ) : Int :=
  let f := Int.floor q
  let r := q - f
  if r < 1 / 2 then f
  else if 1 / 2 < r then f + 1
  else if f % 2 = 0 then f else f + 1

/-- Two decimal digits of a number below one hundred. -/
def twoDigits (n : Nat) : String :=
  String.mk [Nat.digitChar (n / 10 % 10), Nat.digitChar (n % 10)]

/-- Verb `%.2f` of `fmt`: the value rounded to two decimals, or the name of the
special value. -/
def fmtF2 : F64 → String
  | F64.fin q =>
    let n := (roundHalfEven (|q| * 100)).toNat
    (if q < 0 then "-" else "") ++ Nat.repr (n / 100) ++ "." ++ twoDigits (n % 100)
  | F64.posInf => "+Inf"
  | F64.negInf => "-Inf"
  | F64.nan => "NaN"

/-- Method `InfoMessage.String`.  The verb `%v` applied to the minutes is the
shortest decimal that reads back as the same binary number; it belongs to the
`fmt` library and is taken as the parameter `fmtV`. -/
def InfoMessage.String (fmtV : ℚ → String) (i : InfoMessage) : String :=
  "Тип тренировки: " ++ i.TrainingType ++
  "\nДлительность: " ++ fmtV (time.Duration.Minutes i.Duration) ++
  " мин\nДистанция: " ++ fmtF2 i.Distance ++
  " км.\nСр. скорость: " ++ fmtF2 i.Speed ++
  " км/ч\nПотрачено ккал: " ++ fmtF2 i.Calories ++ "\n"

/-! ## The variants -/

/-- Variant `Running`: the measurement record and nothing else. -/
structure Running extends Training

/-- Method `Running.Calories`. -/
def Running.Calories (r : Running) : F64 :=
  if r.Duration = 0 then F64.fin 0
  else
    let caloriesMean :=
      F64.fin CaloriesMeanSpeedMultiplier * r.toTraining.meanSpeed + F64.fin CaloriesMeanSpeedShift
    caloriesMean * F64.fin r.Weight / F64.fin MInKm
      * F64.fin (time.Duration.Hours r.Duration) * F64.fin MinInHours

/-- Method `Running.TrainingInfo`. -/
def Running.TrainingInfo (r : Running) : InfoMessage :=
  r.toTraining.TrainingInfo

/-- Variant `Walking`: the measurement record and the height in centimetres. -/
structure Walking extends Training where
  Height : ℚ

/-- Method `Walking.Calories`. -/
def Walking.Calories (w : Walking) : F64 :=
  let meanSpeedInMsec := w.toTraining.meanSpeed * F64.fin KmHInMsec
  let heightInCm : F64 :=
    if CmInM = 0 then F64.fin 0
    else F64.fin w.Height / F64.fin CmInM
  let caloriesCalc :=
    F64.fin CaloriesWeightMultiplier * F64.fin w.Weight
      + (F64.Pow meanSpeedInMsec 2 / heightInCm)
        * F64.fin CaloriesSpeedHeightMultiplier * F64.fin w.Weight
  let durationMin := F64.fin (time.Duration.Hours w.Duration) * F64.fin MinInHours
  caloriesCalc * durationMin

/-- Method `Walking.TrainingInfo`. -/
def Walking.TrainingInfo (w : Walking) : InfoMessage :=
  w.toTraining.TrainingInfo

/-- Variant `Swimming`: the measurement record, the pool length in metres and
the number of lengths swum. -/
structure Swimming extends Training where
  LengthPool : Int
  CountPool : Int

/-- Method `Swimming.meanSpeed`, declared on `Swimming` itself. -/
def Swimming.meanSpeed (s : Swimming) : F64 :=
  if s.Duration = 0 then F64.fin 0
  else
    F64.ofInt s.LengthPool * F64.ofInt s.CountPool / F64.fin MInKm
      / F64.fin (time.Duration.Hours s.Duration)

/-- Method `Swimming.Calories`. -/
def Swimming.Calories (s : Swimming) : F64 :=
  (Swimming.meanSpeed s + F64.fin SwimmingCaloriesMeanSpeedShift)
    * F64.fin SwimmingCaloriesWeightMultiplier * F64.fin s.Weight
    * F64.fin (time.Duration.Hours s.Duration)

/-- Method `Swimming.TrainingInfo`: it calls `TrainingInfo` of the embedded
`Training`, whose receiver is the record alone. -/
def Swimming.TrainingInfo (s : Swimming) : InfoMessage :=
  s.toTraining.TrainingInfo

/-! ## The driver -/

/-- Interface `CaloriesCalculator`, closed over the three variants that
implement it. -/
inductive CaloriesCalculator where
  | running (r : Running)
  | walking (w : Walking)
  | swimming (s : Swimming)

/-- Dynamic call `training.Calories()`. -/
def CaloriesCalculator.Calories : CaloriesCalculator → F64
  | running r => r.Calories
  | walking w => w.Calories
  | swimming s => s.Calories

/-- Dynamic call `training.TrainingInfo()`. -/
def CaloriesCalculator.TrainingInfo : CaloriesCalculator → InfoMessage
  | running r => r.TrainingInfo
  | walking w => w.TrainingInfo
  | swimming s => s.TrainingInfo

/-- Function `ReadData`. -/
def ReadData (fmtV : ℚ → String) (training : CaloriesCalculator) : String :=
  let calories := training.Calories
  let info := training.TrainingInfo
  let info := { info with Calories := calories }
  InfoMessage.String fmtV info

/-! ## The instances built by `main` -/

/-- Value `swimming` of `main`. -/
def mainSwimming : Swimming :=
  { TrainingType := "Плавание"
    Action := 2000
    LenStep := SwimmingLenStep
    Duration := 90 * time.Minute
    Weight := 85
    LengthPool := 50
    CountPool := 5 }

/-- Value `walking` of `main`. -/
def mainWalking : Walking :=
  { TrainingType := "Ходьба"
    Action := 20000
    LenStep := LenStep
    Duration := 3 * time.Hour + 45 * time.Minute
    Weight := 85
    Height := 185 }

/-- Value `running` of `main`. -/
def mainRunning : Running :=
  { TrainingType := "Бег"
    Action := 5000
    LenStep := LenStep
    Duration := 30 * time.Minute
    Weight := 85 }

/-! ## Further concrete inputs -/

/-- The running value of `main` with its duration set to zero. -/
def stoppedRunning : Running :=
  { mainRunning with Duration := 0 }

/-- The swimming value of `main` with its duration set to zero. -/
def stoppedSwimming : Swimming :=
  { mainSwimming with Duration := 0 }

/-- The walking value of `main` with its duration set to zero. -/
def stoppedWalking : Walking :=
  { mainWalking with Duration := 0 }

/-- The walking value of `main` with both its duration and its height set to
zero. -/
def stoppedFlatWalking : Walking :=
  { mainWalking with Duration := 0, Height := 0 }

/-! ## The records with unrestricted `float64` fields -/

namespace Raw

/-- Record `Training`, its `float64` fields ranging over all values of the
type. -/
structure Training where
  TrainingType : String
  Action : Int
  LenStep : F64
  Duration : time.Duration
  Weight : F64

/-- Method `Training.distance`. -/
def Training.distance (t : Training) : F64 :=
  F64.ofInt t.Action * t.LenStep / F64.fin MInKm

/-- Method `Training.meanSpeed`. -/
def Training.meanSpeed (t : Training) : F64 :=
  if t.Duration = 0 then F64.fin 0
  else t.distance / F64.fin (time.Duration.Hours t.Duration)

/-- Variant `Running`. -/
structure Running extends Training

/-- Method `Running.Calories`. -/
def Running.Calories (r : Running) : F64 :=
  if r.Duration = 0 then F64.fin 0
  else
    let caloriesMean :=
      F64.fin CaloriesMeanSpeedMultiplier * r.toTraining.meanSpeed + F64.fin CaloriesMeanSpeedShift
    caloriesMean * r.Weight / F64.fin MInKm
      * F64.fin (time.Duration.Hours r.Duration) * F64.fin MinInHours

/-- Variant `Swimming`. -/
structure Swimming extends Training where
  LengthPool : Int
  CountPool : Int

/-- Method `Swimming.meanSpeed`. -/
def Swimming.meanSpeed (s : Swimming) : F64 :=
  if s.Duration = 0 then F64.fin 0
  else
    F64.ofInt s.LengthPool * F64.ofInt s.CountPool / F64.fin MInKm
      / F64.fin (time.Duration.Hours s.Duration)

/-- Method `Swimming.Calories`. -/
def Swimming.Calories (s : Swimming) : F64 :=
  (Swimming.meanSpeed s + F64.fin SwimmingCaloriesMeanSpeedShift)
    * F64.fin SwimmingCaloriesWeightMultiplier * s.Weight
    * F64.fin (time.Duration.Hours s.Duration)

end Raw

/-- A `Running` value with finite fields, read as a value of the Go type. -/
def Running.toRaw (r : Running) : Raw.Running :=
  { TrainingType := r.TrainingType
    Action := r.Action
    LenStep := F64.fin r.LenStep
    Duration := r.Duration
    Weight := F64.fin r.Weight }

/-- A `Swimming` value with finite fields, read as a value of the Go type. -/
def Swimming.toRaw (s : Swimming) : Raw.Swimming :=
  { TrainingType := s.TrainingType
    Action := s.Action
    LenStep := F64.fin s.LenStep
    Duration := s.Duration
    Weight := F64.fin s.Weight
    LengthPool := s.LengthPool
    CountPool := s.CountPool }

/-- The swimming value of `main` with a zero duration and the weight `+Inf`
(`math.Inf(1)`). -/
def heavySwimming : Raw.Swimming :=
  { stoppedSwimming.toRaw with Weight := F64.posInf }

/-! ## Notions used to state the properties -/

/-- The number `q` rounded to `k` decimals. -/
def roundDecimals (k : Nat) (q : ℚ) : ℚ :=
  (roundHalfEven (q * 10 ^ k) : ℚ) / 10 ^ k

/-- The value `x` rounded to `k` decimals; a special value is left as it is. -/
def F64.roundDecimals (k : Nat) : F64 → F64
  | F64.fin q => F64.fin (Fitness.roundDecimals k q)
  | x => x

/-- Comparison `x >= 0` of Go: true of a non-negative number and of `+Inf`. -/
def F64.geZero : F64 → Bool
  | F64.fin q => decide (0 ≤ q)
  | F64.posInf => true
  | F64.negInf => false
  | F64.nan => false

/-- The measurements of a record are non-negative. -/
def Training.NonNeg (t : Training) : Prop :=
  0 ≤ t.Action ∧ 0 ≤ t.LenStep ∧ 0 ≤ t.Duration ∧ 0 ≤ t.Weight

instance (t : Training) : Decidable t.NonNeg := by
  unfold Training.NonNeg
  infer_instance

/-- Whether `s` is a decimal numeral with exactly two digits after the decimal
point: an optional minus sign, one digit or more, a point, two digits. -/
def isTwoDecimal (s : String) : Bool :=
  let cs : List Char :=
    match s.data with
    | '-' :: rest => rest
    | cs => cs
  match cs.reverse with
  | b :: a :: '.' :: ip => b.isDigit && a.isDigit && !ip.isEmpty && ip.all Char.isDigit
  | _ => false

/-- A rendering of the minutes by their whole part in decimal digits; on a whole
number of minutes from 0 to 999999 these are the digits that `%v` prints. -/
def fmtWholeMinutes (q : ℚ) : String :=
  Nat.repr (Int.floor q).toNat

/-- The five-line layout with the labels of the specification (section 4.5), to
compare with `InfoMessage.String`. -/
def specString (fmtV : ℚ → String) (i : InfoMessage) : String :=
  "Training type: " ++ i.TrainingType ++
  "\nDuration: " ++ fmtV (time.Duration.Minutes i.Duration) ++
  " min\nDistance: " ++ fmtF2 i.Distance ++
  " km.\nAvg speed: " ++ fmtF2 i.Speed ++
  " km/h\nCalories burned: " ++ fmtF2 i.Calories ++ "\n"

/-- The five lines of the layout of `InfoMessage.String`, each without its
final newline. -/
def reportLines (fmtV : ℚ → String) (i : InfoMessage) : List String :=
  [ "Тип тренировки: " ++ i.TrainingType,
    "Длительность: " ++ fmtV (time.Duration.Minutes i.Duration) ++ " мин",
    "Дистанция: " ++ fmtF2 i.Distance ++ " км.",
    "Ср. скорость: " ++ fmtF2 i.Speed ++ " км/ч",
    "Потрачено ккал: " ++ fmtF2 i.Calories ]

/-- The summary that `ReadData` renders for `stoppedFlatWalking`. -/
def stoppedFlatInfo : InfoMessage :=
  { Walking.TrainingInfo stoppedFlatWalking with
    Calories := Walking.Calories stoppedFlatWalking }

/-- The summary that `ReadData` renders for the running value of `main`. -/
def mainRunningInfo : InfoMessage :=
  { Running.TrainingInfo mainRunning with Calories := Running.Calories mainRunning }

/-- A duration of ninety seconds. -/
def ninetySeconds : time.Duration := 90 * 1000000000

/-! ## Arithmetic on finite values -/

theorem F64.fin_add_fin (a b : ℚ) : F64.fin a + F64.fin b = F64.fin (a + b) := rfl

theorem F64.fin_mul_fin (a b : ℚ) : F64.fin a * F64.fin b = F64.fin (a * b) := rfl

theorem F64.fin_div_fin (a b : ℚ) (hb : b ≠ 0) : F64.fin a / F64.fin b = F64.fin (a / b) := by
  show F64.div (F64.fin a) (F64.fin b) = F64.fin (a / b)
  simp [F64.div, hb]

theorem F64.zero_div_zero : F64.fin 0 / F64.fin 0 = F64.nan := by
  show F64.div (F64.fin 0) (F64.fin 0) = F64.nan
  simp [F64.div]

theorem F64.nan_mul (x : F64) : F64.nan * x = F64.nan := by
  show F64.mul F64.nan x = F64.nan
  cases x <;> rfl

theorem F64.add_nan (x : F64) : x + F64.nan = F64.nan := by
  show F64.add x F64.nan = F64.nan
  cases x <;> rfl

theorem F64.Pow_fin_two (a : ℚ) : F64.Pow (F64.fin a) 2 = F64.fin (a ^ 2) := rfl

/-- In exact arithmetic `Hours` is the number of nanoseconds over `3.6e12`. -/
theorem time.Hours_eq (d : time.Duration) :
    time.Duration.Hours d = (d : ℚ) / 3600000000000 := by
  have h : ((time.Hour * Int.tdiv d time.Hour + Int.tmod d time.Hour : Int) : ℚ) = (d : ℚ) := by
    rw [Int.tdiv_add_tmod]
  have hH : ((time.Hour : Int) : ℚ) = 3600000000000 := by
    norm_num [time.Hour, time.Minute]
  push_cast at h
  rw [hH] at h
  unfold time.Duration.Hours
  rw [← h]
  ring

/-- In exact arithmetic `Minutes` is the number of nanoseconds over `6e10`. -/
theorem time.Minutes_eq (d : time.Duration) :
    time.Duration.Minutes d = (d : ℚ) / 60000000000 := by
  have h : ((time.Minute * Int.tdiv d time.Minute + Int.tmod d time.Minute : Int) : ℚ)
      = (d : ℚ) := by
    rw [Int.tdiv_add_tmod]
  have hM : ((time.Minute : Int) : ℚ) = 60000000000 := by
    norm_num [time.Minute]
  push_cast at h
  rw [hM] at h
  unfold time.Duration.Minutes
  rw [← h]
  ring

theorem time.Hours_ne_zero (d : time.Duration) (hd : d ≠ 0) :
    time.Duration.Hours d ≠ 0 := by
  rw [time.Hours_eq]
  have : (d : ℚ) ≠ 0 := by exact_mod_cast hd
  exact div_ne_zero this (by norm_num)

theorem time.Hours_zero : time.Duration.Hours 0 = 0 := by
  rw [time.Hours_eq]; simp

/-- The distance is always a finite number. -/
theorem Training.distance_eq (t : Training) :
    t.distance = F64.fin ((t.Action : ℚ) * t.LenStep / 1000) := by
  unfold Training.distance F64.ofInt
  rw [F64.fin_mul_fin, F64.fin_div_fin _ _ (by norm_num [MInKm])]
  simp [MInKm]

/-- The base mean speed is always a finite number. -/
theorem Training.baseSpeed_eq (t : Training) :
    t.meanSpeed = F64.fin (if t.Duration = 0 then 0
      else (t.Action : ℚ) * t.LenStep / 1000 / ((t.Duration : ℚ) / 3600000000000)) := by
  unfold Training.meanSpeed
  by_cases h : t.Duration = 0
  · simp [h]
  · rw [if_neg h, if_neg h, Training.distance_eq,
      F64.fin_div_fin _ _ (time.Hours_ne_zero _ h), time.Hours_eq]

/-- The mean speed of `Swimming` is always a finite number. -/
theorem Swimming.poolSpeed_eq (s : Swimming) :
    Swimming.meanSpeed s = F64.fin (if s.Duration = 0 then 0
      else (s.LengthPool : ℚ) * s.CountPool / 1000 / ((s.Duration : ℚ) / 3600000000000)) := by
  unfold Swimming.meanSpeed F64.ofInt
  by_cases h : s.Duration = 0
  · simp [h]
  · rw [if_neg h, if_neg h, F64.fin_mul_fin, F64.fin_div_fin _ _ (by norm_num [MInKm]),
      F64.fin_div_fin _ _ (time.Hours_ne_zero _ h), time.Hours_eq]
    simp [MInKm]

/-- With a zero duration and a non-zero height `Walking.Calories` is 0: the
squared speed 0 is divided by a non-zero height and the sum is multiplied by
zero minutes. -/
theorem Walking.Calories_stopped (w : Walking) (hd : w.Duration = 0) (hH : w.Height ≠ 0) :
    Walking.Calories w = F64.fin 0 := by
  have hC : CmInM ≠ 0 := by norm_num [CmInM]
  unfold Walking.Calories
  simp only [if_neg hC]
  rw [Training.baseSpeed_eq, if_pos hd, hd, time.Hours_zero, F64.fin_div_fin _ _ hC]
  simp only [F64.fin_mul_fin, F64.Pow_fin_two]
  rw [F64.fin_div_fin _ _ (div_ne_zero hH hC)]
  simp only [F64.fin_mul_fin, F64.fin_add_fin, zero_mul, mul_zero]

/-! ## The calorie formulas and the summary of `Swimming` -/

/-- Claim C1, evaluated on the code at the swimming value of `main` (2000
strokes of 1.38 m, a 50 m pool swum 5 times, 90 minutes): the `Speed` of the
summary returned by `Swimming.TrainingInfo` is the base value 46/25 (1.84 km/h,
from `Action * LenStep`), whereas the mean speed declared on `Swimming` is 1/6
(from `LengthPool * CountPool`); the summary does not carry the latter. -/
theorem swimming_summary_speed_at_main :
    (Swimming.TrainingInfo mainSwimming).Speed = F64.fin (46 / 25)
    ∧ Swimming.meanSpeed mainSwimming = F64.fin (1 / 6)
    ∧ (Swimming.TrainingInfo mainSwimming).Speed ≠ Swimming.meanSpeed mainSwimming := by
  have h1 : (Swimming.TrainingInfo mainSwimming).Speed = F64.fin (46 / 25) := by
    show Training.meanSpeed mainSwimming.toTraining = _
    rw [Training.baseSpeed_eq]
    norm_num [mainSwimming, SwimmingLenStep, time.Minute]
  have h2 : Swimming.meanSpeed mainSwimming = F64.fin (1 / 6) := by
    rw [Swimming.poolSpeed_eq]
    norm_num [mainSwimming, time.Minute]
  refine ⟨h1, h2, ?_⟩
  rw [h1, h2]
  intro h
  injection h with h
  norm_num at h

/-- Claim C2: with a non-zero duration `Running.Calories` is
`(18 * speed + 1.79) * Weight / 1000 * hours * 60`, where `hours` is the
duration in hours and `speed = Action * LenStep / 1000 / hours`; with a zero
duration it is 0. -/
theorem running_calories_formula (r r0 : Running) (hours speed : ℚ)
    (hr : r.Duration ≠ 0) (hh : hours = (r.Duration : ℚ) / 3600000000000)
    (hs : speed = (r.Action : ℚ) * r.LenStep / 1000 / hours)
    (h0 : r0.Duration = 0) :
    Running.Calories r = F64.fin ((18 * speed + 1.79) * r.Weight / 1000 * hours * 60)
    ∧ Running.Calories r0 = F64.fin 0 := by
  constructor
  · unfold Running.Calories
    rw [if_neg hr, Training.baseSpeed_eq, if_neg hr, time.Hours_eq]
    simp only [F64.fin_mul_fin, F64.fin_add_fin]
    rw [F64.fin_div_fin _ _ (by norm_num [MInKm])]
    simp only [F64.fin_mul_fin]
    subst hs hh
    simp [CaloriesMeanSpeedMultiplier, CaloriesMeanSpeedShift, MInKm, MinInHours]
  · unfold Running.Calories
    rw [if_pos h0]

/-- Claim C3: with a non-zero duration `Swimming.Calories` is
`(s + 1.1) * 2 * Weight * hours`, where `hours` is the duration in hours and
`s = LengthPool * CountPool / 1000 / hours` is the mean speed declared on
`Swimming`. -/
theorem swimming_calories_formula (s : Swimming) (hours speed : ℚ)
    (hd : s.Duration ≠ 0) (hh : hours = (s.Duration : ℚ) / 3600000000000)
    (hs : speed = (s.LengthPool : ℚ) * s.CountPool / 1000 / hours) :
    Swimming.Calories s = F64.fin ((speed + 1.1) * 2 * s.Weight * hours) := by
  unfold Swimming.Calories
  rw [Swimming.poolSpeed_eq, if_neg hd, time.Hours_eq]
  simp only [F64.fin_mul_fin, F64.fin_add_fin]
  subst hs hh
  simp [SwimmingCaloriesMeanSpeedShift, SwimmingCaloriesWeightMultiplier]

/-- Claim C4: with a non-zero height `Walking.Calories` is
`(0.035 * Weight + (v^2 / (Height / 100)) * 0.029 * Weight) * (hours * 60)`,
where `hours` is the duration in hours, `v = meanSpeed * 0.278` and `meanSpeed`
is the base mean speed (0 for a zero duration); the divisor is `Height / 100`,
the constant `CmInM` being non-zero. -/
theorem walking_calories_formula (w : Walking) (hours meanSpeed v : ℚ)
    (hH : w.Height ≠ 0) (hh : hours = (w.Duration : ℚ) / 3600000000000)
    (hm : meanSpeed = if w.Duration = 0 then 0
      else (w.Action : ℚ) * w.LenStep / 1000 / hours)
    (hv : v = meanSpeed * 0.278) :
    Walking.Calories w
      = F64.fin ((0.035 * w.Weight + (v ^ 2 / (w.Height / 100)) * 0.029 * w.Weight)
          * (hours * 60))
    ∧ CmInM ≠ 0 := by
  have hC : CmInM ≠ 0 := by norm_num [CmInM]
  have hdiv : w.Height / CmInM ≠ 0 := div_ne_zero hH hC
  refine ⟨?_, hC⟩
  unfold Walking.Calories
  simp only [if_neg hC]
  rw [Training.baseSpeed_eq, time.Hours_eq, F64.fin_div_fin _ _ hC]
  simp only [F64.fin_mul_fin, F64.Pow_fin_two]
  rw [F64.fin_div_fin _ _ hdiv]
  simp only [F64.fin_mul_fin, F64.fin_add_fin]
  subst hv hm hh
  simp [CaloriesWeightMultiplier, CaloriesSpeedHeightMultiplier, KmHInMsec, MinInHours, CmInM]

/-- Witness of C2: the running value of `main` (half an hour at 6.5 km/h) and the
same value with a zero duration. -/
theorem running_calories_formula_witness :
    mainRunning.Duration ≠ 0 ∧ stoppedRunning.Duration = 0
    ∧ Running.Calories mainRunning
        = F64.fin ((18 * (13 / 2) + 1.79) * 85 / 1000 * (1 / 2) * 60)
    ∧ Running.Calories stoppedRunning = F64.fin 0 :=
  have hr : mainRunning.Duration ≠ 0 := by norm_num [mainRunning, time.Minute]
  have h0 : stoppedRunning.Duration = 0 := rfl
  ⟨hr, h0, running_calories_formula mainRunning stoppedRunning (1 / 2) (13 / 2) hr
    (by norm_num [mainRunning, time.Minute])
    (by norm_num [mainRunning, LenStep]) h0⟩

/-- Witness of C3: the swimming value of `main` (an hour and a half at 1/6
km/h). -/
theorem swimming_calories_formula_witness :
    mainSwimming.Duration ≠ 0
    ∧ Swimming.Calories mainSwimming = F64.fin ((1 / 6 + 1.1) * 2 * 85 * (3 / 2)) :=
  have hd : mainSwimming.Duration ≠ 0 := by norm_num [mainSwimming, time.Minute]
  ⟨hd, swimming_calories_formula mainSwimming (3 / 2) (1 / 6) hd
    (by norm_num [mainSwimming, time.Minute])
    (by norm_num [mainSwimming])⟩

/-- Witness of C4: the walking value of `main` (3 h 45 min, 13 km, 185 cm). -/
theorem walking_calories_formula_witness :
    mainWalking.Height ≠ 0
    ∧ Walking.Calories mainWalking
        = F64.fin ((0.035 * 85 + ((52 / 15 * 0.278) ^ 2 / (185 / 100)) * 0.029 * 85)
            * (15 / 4 * 60)) :=
  have hH : mainWalking.Height ≠ 0 := by norm_num [mainWalking]
  ⟨hH, (walking_calories_formula mainWalking (15 / 4) (52 / 15) (52 / 15 * 0.278) hH
    (by norm_num [mainWalking, time.Minute, time.Hour])
    (by norm_num [mainWalking, time.Minute, time.Hour, LenStep])
    rfl).1⟩

/-! ## Zero duration -/

/-- Claim C5: with a zero duration `Training.meanSpeed` and `Swimming.meanSpeed`
return 0 whatever the other fields are; the result is the number 0, not the
outcome of a division by zero. -/
theorem meanSpeed_zero_duration (t : Training) (s : Swimming)
    (ht : t.Duration = 0) (hs : s.Duration = 0) :
    t.meanSpeed = F64.fin 0 ∧ Swimming.meanSpeed s = F64.fin 0 := by
  constructor
  · unfold Training.meanSpeed
    rw [if_pos ht]
  · unfold Swimming.meanSpeed
    rw [if_pos hs]

/-- Witness of C5: the running and the swimming value of `main` with a zero
duration. -/
theorem meanSpeed_zero_duration_witness :
    stoppedRunning.toTraining.Duration = 0 ∧ stoppedSwimming.Duration = 0
    ∧ stoppedRunning.toTraining.meanSpeed = F64.fin 0
    ∧ Swimming.meanSpeed stoppedSwimming = F64.fin 0 :=
  ⟨rfl, rfl, meanSpeed_zero_duration stoppedRunning.toTraining stoppedSwimming rfl rfl⟩

/-- Counterexample to C6: the running value of `main` with a zero duration (5000
steps of 0.65 m) has distance 13/4 km, in `Training.distance` and in the
summary, not 0. -/
theorem distance_zero_duration_counterexample :
    stoppedRunning.Duration = 0
    ∧ stoppedRunning.toTraining.distance = F64.fin (13 / 4)
    ∧ (Running.TrainingInfo stoppedRunning).Distance = F64.fin (13 / 4)
    ∧ (Running.TrainingInfo stoppedRunning).Distance ≠ F64.fin 0 := by
  have h : stoppedRunning.toTraining.distance = F64.fin (13 / 4) := by
    rw [Training.distance_eq]
    norm_num [stoppedRunning, mainRunning, LenStep]
  refine ⟨rfl, h, h, ?_⟩
  show stoppedRunning.toTraining.distance ≠ F64.fin 0
  rw [h]
  intro h0
  injection h0 with h0
  norm_num at h0

/-- Claim C6 as amended: for every variant and every duration, zero included,
the distance, in `Training.distance` and in the `Distance` field of the summary,
is `Action * LenStep / 1000`; the duration has no part in it. -/
theorem distance_any_duration (r : Running) (w : Walking) (s : Swimming) :
    (r.toTraining.distance = F64.fin ((r.Action : ℚ) * r.LenStep / 1000)
      ∧ (Running.TrainingInfo r).Distance = F64.fin ((r.Action : ℚ) * r.LenStep / 1000))
    ∧ (w.toTraining.distance = F64.fin ((w.Action : ℚ) * w.LenStep / 1000)
      ∧ (Walking.TrainingInfo w).Distance = F64.fin ((w.Action : ℚ) * w.LenStep / 1000))
    ∧ (s.toTraining.distance = F64.fin ((s.Action : ℚ) * s.LenStep / 1000)
      ∧ (Swimming.TrainingInfo s).Distance = F64.fin ((s.Action : ℚ) * s.LenStep / 1000)) :=
  ⟨⟨r.toTraining.distance_eq, r.toTraining.distance_eq⟩,
    ⟨w.toTraining.distance_eq, w.toTraining.distance_eq⟩,
    ⟨s.toTraining.distance_eq, s.toTraining.distance_eq⟩⟩

/-- On finite fields `Running.Calories` is the same in the two readings. -/
theorem Running.raw_runCalories (r : Running) :
    Raw.Running.Calories r.toRaw = Running.Calories r := rfl

/-- On finite fields `Swimming.Calories` is the same in the two readings. -/
theorem Swimming.raw_swimCalories (s : Swimming) :
    Raw.Swimming.Calories s.toRaw = Swimming.Calories s := rfl

theorem F64.fin_mul_posInf (a : ℚ) (ha : 0 < a) : F64.fin a * F64.posInf = F64.posInf := by
  show F64.mulInf a true = F64.posInf
  simp [F64.mulInf, ha, ne_of_gt ha]

theorem F64.posInf_mul_zero : F64.posInf * F64.fin 0 = F64.nan := by
  show F64.mulInf 0 true = F64.nan
  simp [F64.mulInf]

/-- With a zero duration and the weight `+Inf` the calories of `Swimming` are
`NaN`: `(0 + 1.1) * 2 * +Inf` is `+Inf`, and `+Inf * 0` is `NaN`. -/
theorem heavySwimming_Calories : Raw.Swimming.Calories heavySwimming = F64.nan := by
  have hd : heavySwimming.Duration = 0 := rfl
  have hw : heavySwimming.Weight = F64.posInf := rfl
  unfold Raw.Swimming.Calories Raw.Swimming.meanSpeed
  rw [if_pos hd, hd, hw, time.Hours_zero, F64.fin_add_fin, F64.fin_mul_fin,
    F64.fin_mul_posInf _ (by norm_num [SwimmingCaloriesMeanSpeedShift,
      SwimmingCaloriesWeightMultiplier]), F64.posInf_mul_zero]

/-- Counterexample to C7: the swimming value of `main` with a zero duration and
the weight `+Inf` has calories `NaN`, not 0; `Swimming.Calories` has no guard on
the duration and multiplies the infinite product by zero hours. -/
theorem swimming_calories_zero_duration_counterexample :
    heavySwimming.Duration = 0
    ∧ heavySwimming.Weight = F64.posInf
    ∧ Raw.Swimming.Calories heavySwimming = F64.nan
    ∧ Raw.Swimming.Calories heavySwimming ≠ F64.fin 0 := by
  refine ⟨rfl, rfl, heavySwimming_Calories, ?_⟩
  rw [heavySwimming_Calories]
  exact fun h0 => F64.noConfusion h0

/-- Claim C7 as amended: with a zero duration `Running.Calories` returns 0
whatever `Action`, `LenStep` and `Weight` are, any value of the type included;
with a zero duration `Swimming.Calories` returns 0 whatever `Action`, `LenStep`,
`LengthPool` and `CountPool` are, for every `Weight` whose product
`(0 + 1.1) * 2 * Weight` is a finite number `p`. -/
theorem calories_zero_duration (r : Raw.Running) (s : Raw.Swimming) (p : ℚ)
    (hr : r.Duration = 0) (hs : s.Duration = 0)
    (hp : (F64.fin 0 + F64.fin 1.1) * F64.fin 2 * s.Weight = F64.fin p) :
    Raw.Running.Calories r = F64.fin 0 ∧ Raw.Swimming.Calories s = F64.fin 0 := by
  constructor
  · unfold Raw.Running.Calories
    rw [if_pos hr]
  · have hp2 : (F64.fin 0 + F64.fin SwimmingCaloriesMeanSpeedShift)
        * F64.fin SwimmingCaloriesWeightMultiplier * s.Weight = F64.fin p := hp
    unfold Raw.Swimming.Calories Raw.Swimming.meanSpeed
    rw [if_pos hs, hp2, hs, time.Hours_zero, F64.fin_mul_fin, mul_zero]

/-- Witness of C7 as amended: the running and the swimming value of `main` with
a zero duration; the weight is 85 and the product is the number
`(0 + 1.1) * 2 * 85`. -/
theorem calories_zero_duration_witness :
    stoppedRunning.toRaw.Duration = 0 ∧ stoppedSwimming.toRaw.Duration = 0
    ∧ (F64.fin 0 + F64.fin 1.1) * F64.fin 2 * stoppedSwimming.toRaw.Weight
        = F64.fin ((0 + 1.1) * 2 * 85)
    ∧ Raw.Running.Calories stoppedRunning.toRaw = F64.fin 0
    ∧ Raw.Swimming.Calories stoppedSwimming.toRaw = F64.fin 0 :=
  have hp : (F64.fin 0 + F64.fin 1.1) * F64.fin 2 * stoppedSwimming.toRaw.Weight
      = F64.fin ((0 + 1.1) * 2 * 85) := rfl
  ⟨rfl, rfl, hp,
    calories_zero_duration stoppedRunning.toRaw stoppedSwimming.toRaw _ rfl rfl hp⟩

/-- Claim C8, evaluated on the code at the walking value of `main` with a zero
duration and a zero height: the squared speed 0 is divided by `Height / 100 = 0`,
which gives `NaN`, and `Walking.Calories` returns `NaN`, not 0. -/
theorem walking_calories_zero_duration_zero_height :
    stoppedFlatWalking.Duration = 0 ∧ stoppedFlatWalking.Height = 0
    ∧ Walking.Calories stoppedFlatWalking = F64.nan
    ∧ Walking.Calories stoppedFlatWalking ≠ F64.fin 0 := by
  have h : Walking.Calories stoppedFlatWalking = F64.nan := by
    have hC : CmInM ≠ 0 := by norm_num [CmInM]
    have hd : stoppedFlatWalking.Duration = 0 := rfl
    have hH : stoppedFlatWalking.Height = 0 := rfl
    unfold Walking.Calories
    simp only [if_neg hC]
    rw [Training.baseSpeed_eq, if_pos hd, hH, F64.fin_div_fin _ _ hC]
    simp only [F64.fin_mul_fin, F64.Pow_fin_two]
    norm_num [F64.zero_div_zero, F64.nan_mul, F64.add_nan]
  refine ⟨rfl, rfl, h, ?_⟩
  rw [h]
  exact fun h0 => F64.noConfusion h0

/-! ## The driver and the base summary -/

/-- Claim C9: for each variant `ReadData` is the rendering of the summary
returned by `TrainingInfo` of that variant with its `Calories` field replaced by
`Calories` of that same variant and the other four fields unchanged; the base
`Training.Calories` is constantly 0 and is not what is rendered. -/
theorem readData_renders_own_calories (fmtV : ℚ → String)
    (r : Running) (w : Walking) (s : Swimming) :
    ReadData fmtV (CaloriesCalculator.running r)
      = InfoMessage.String fmtV
          { TrainingType := (Running.TrainingInfo r).TrainingType
            Duration := (Running.TrainingInfo r).Duration
            Distance := (Running.TrainingInfo r).Distance
            Speed := (Running.TrainingInfo r).Speed
            Calories := Running.Calories r }
    ∧ ReadData fmtV (CaloriesCalculator.walking w)
      = InfoMessage.String fmtV
          { TrainingType := (Walking.TrainingInfo w).TrainingType
            Duration := (Walking.TrainingInfo w).Duration
            Distance := (Walking.TrainingInfo w).Distance
            Speed := (Walking.TrainingInfo w).Speed
            Calories := Walking.Calories w }
    ∧ ReadData fmtV (CaloriesCalculator.swimming s)
      = InfoMessage.String fmtV
          { TrainingType := (Swimming.TrainingInfo s).TrainingType
            Duration := (Swimming.TrainingInfo s).Duration
            Distance := (Swimming.TrainingInfo s).Distance
            Speed := (Swimming.TrainingInfo s).Speed
            Calories := Swimming.Calories s }
    ∧ (∀ t : Training, Training.Calories t = F64.fin 0) :=
  ⟨rfl, rfl, rfl, fun _ => rfl⟩

/-- Claim C10: the summary returned by `Training.TrainingInfo` has the
`TrainingType` and `Duration` of the record, `Distance = Action * LenStep / 1000`,
`Speed` equal to that distance over the duration in hours (0 for a zero
duration), and `Calories = 0`. -/
theorem training_info_fields (t : Training) :
    t.TrainingInfo.TrainingType = t.TrainingType
    ∧ t.TrainingInfo.Duration = t.Duration
    ∧ t.TrainingInfo.Distance = F64.fin ((t.Action : ℚ) * t.LenStep / 1000)
    ∧ t.TrainingInfo.Speed = F64.fin (if t.Duration = 0 then 0
        else ((t.Action : ℚ) * t.LenStep / 1000) / ((t.Duration : ℚ) / 3600000000000))
    ∧ t.TrainingInfo.Calories = F64.fin 0 :=
  ⟨rfl, rfl, t.distance_eq, t.baseSpeed_eq, rfl⟩

/-! ## Closed forms of the calorie methods -/

/-- The calories of `Running` are always a finite number. -/
theorem Running.runCalories_eq (r : Running) :
    Running.Calories r = F64.fin (if r.Duration = 0 then 0
      else (18 * ((r.Action : ℚ) * r.LenStep / 1000 / ((r.Duration : ℚ) / 3600000000000))
          + 1.79) * r.Weight / 1000 * ((r.Duration : ℚ) / 3600000000000) * 60) := by
  unfold Running.Calories
  by_cases h : r.Duration = 0
  · rw [if_pos h, if_pos h]
  · rw [if_neg h, if_neg h, Training.baseSpeed_eq, if_neg h, time.Hours_eq]
    simp only [F64.fin_mul_fin, F64.fin_add_fin]
    rw [F64.fin_div_fin _ _ (by norm_num [MInKm])]
    simp only [F64.fin_mul_fin]
    simp [CaloriesMeanSpeedMultiplier, CaloriesMeanSpeedShift, MInKm, MinInHours]

/-- The calories of `Swimming` are always a finite number. -/
theorem Swimming.swimCalories_eq (s : Swimming) :
    Swimming.Calories s = F64.fin (((if s.Duration = 0 then 0
      else (s.LengthPool : ℚ) * s.CountPool / 1000 / ((s.Duration : ℚ) / 3600000000000))
        + 1.1) * 2 * s.Weight * ((s.Duration : ℚ) / 3600000000000)) := by
  unfold Swimming.Calories
  rw [Swimming.poolSpeed_eq, time.Hours_eq]
  simp only [F64.fin_mul_fin, F64.fin_add_fin]
  simp [SwimmingCaloriesMeanSpeedShift, SwimmingCaloriesWeightMultiplier]

/-- The calories of `Walking` are a finite number when the height is not zero. -/
theorem Walking.walkCalories_eq (w : Walking) (hH : w.Height ≠ 0) :
    Walking.Calories w = F64.fin ((0.035 * w.Weight
      + (((if w.Duration = 0 then 0
            else (w.Action : ℚ) * w.LenStep / 1000 / ((w.Duration : ℚ) / 3600000000000))
          * 0.278) ^ 2 / (w.Height / 100)) * 0.029 * w.Weight)
      * ((w.Duration : ℚ) / 3600000000000 * 60)) := by
  have hC : CmInM ≠ 0 := by norm_num [CmInM]
  unfold Walking.Calories
  simp only [if_neg hC]
  rw [Training.baseSpeed_eq, time.Hours_eq, F64.fin_div_fin _ _ hC]
  simp only [F64.fin_mul_fin, F64.Pow_fin_two]
  rw [F64.fin_div_fin _ _ (div_ne_zero hH hC)]
  simp only [F64.fin_mul_fin, F64.fin_add_fin]
  simp [CaloriesWeightMultiplier, CaloriesSpeedHeightMultiplier, KmHInMsec, MinInHours, CmInM]

/-- A number strictly within a half of the integer `z` rounds to `z`. -/
theorem roundHalfEven_eq (q : ℚ) (z : Int) (h1 : (z : ℚ) - 1 / 2 < q)
    (h2 : q < (z : ℚ) + 1 / 2) : roundHalfEven q = z := by
  unfold roundHalfEven
  rcases lt_or_le q (z : ℚ) with h | h
  · have hf : Int.floor q = z - 1 := by
      rw [Int.floor_eq_iff]
      push_cast
      constructor <;> linarith
    simp only [hf]
    push_cast
    rw [if_neg (by linarith), if_pos (by linarith)]
    ring
  · have hf : Int.floor q = z := by
      rw [Int.floor_eq_iff]
      constructor <;> linarith
    simp only [hf]
    rw [if_pos (by linarith)]

/-- Rounding to `k` decimals, from a bound on the scaled number. -/
theorem roundDecimals_eq (k : Nat) (q : ℚ) (z : Int)
    (h1 : (z : ℚ) - 1 / 2 < q * 10 ^ k) (h2 : q * 10 ^ k < (z : ℚ) + 1 / 2) :
    roundDecimals k q = (z : ℚ) / 10 ^ k := by
  unfold roundDecimals
  rw [roundHalfEven_eq _ z h1 h2]

theorem mainRunning_Calories : Running.Calories mainRunning = F64.fin (605829 / 2000) := by
  rw [Running.runCalories_eq]
  norm_num [mainRunning, LenStep, time.Minute]

theorem mainSwimming_Calories : Swimming.Calories mainSwimming = F64.fin 323 := by
  rw [Swimming.swimCalories_eq]
  norm_num [mainSwimming, time.Minute]

theorem mainSwimming_meanSpeed : Swimming.meanSpeed mainSwimming = F64.fin (1 / 6) := by
  rw [Swimming.poolSpeed_eq]
  norm_num [mainSwimming, time.Minute]

/-! ## The fixtures of `main` -/

/-- Counterexample to C11: for the running value of `main` the calories are
302.9145, which is 302.9 when rounded to one decimal, and not 130.7. -/
theorem running_fixture_calories_counterexample :
    Running.Calories mainRunning = F64.fin 302.9145
    ∧ F64.roundDecimals 1 (Running.Calories mainRunning) = F64.fin 302.9
    ∧ F64.roundDecimals 1 (Running.Calories mainRunning) ≠ F64.fin 130.7 := by
  have h1 : Running.Calories mainRunning = F64.fin 302.9145 := by
    rw [mainRunning_Calories]
    norm_num
  have h2 : F64.roundDecimals 1 (Running.Calories mainRunning) = F64.fin 302.9 := by
    rw [mainRunning_Calories]
    show F64.fin (roundDecimals 1 (605829 / 2000)) = _
    rw [roundDecimals_eq 1 _ 3029 (by norm_num) (by norm_num)]
    norm_num
  refine ⟨h1, h2, ?_⟩
  rw [h2]
  intro h
  injection h with h
  norm_num at h

/-- Claim C11 as amended: for the running value of `main` (5000 steps of 0.65 m,
30 minutes, 85 kg) the distance is 3.25 km, the mean speed is 6.5 km/h, and
`Running.Calories` is 302.9145, which is 302.9 when rounded to one decimal. -/
theorem running_fixture :
    mainRunning.toTraining.distance = F64.fin 3.25
    ∧ mainRunning.toTraining.meanSpeed = F64.fin 6.5
    ∧ Running.Calories mainRunning = F64.fin 302.9145
    ∧ F64.roundDecimals 1 (Running.Calories mainRunning) = F64.fin 302.9 := by
  refine ⟨?_, ?_, ?_, ?_⟩
  · rw [Training.distance_eq]
    norm_num [mainRunning, LenStep]
  · rw [Training.baseSpeed_eq]
    norm_num [mainRunning, LenStep, time.Minute]
  · rw [mainRunning_Calories]
    norm_num
  · rw [mainRunning_Calories]
    show F64.fin (roundDecimals 1 (605829 / 2000)) = _
    rw [roundDecimals_eq 1 _ 3029 (by norm_num) (by norm_num)]
    norm_num

/-- Counterexample to C12: for the swimming value of `main` the calories,
rounded to two decimals, are 323.00 and not 323.25. -/
theorem swimming_fixture_calories_counterexample :
    F64.roundDecimals 2 (Swimming.Calories mainSwimming) = F64.fin 323
    ∧ F64.roundDecimals 2 (Swimming.Calories mainSwimming) ≠ F64.fin 323.25 := by
  have h2 : F64.roundDecimals 2 (Swimming.Calories mainSwimming) = F64.fin 323 := by
    rw [mainSwimming_Calories]
    show F64.fin (roundDecimals 2 323) = _
    rw [roundDecimals_eq 2 _ 32300 (by norm_num) (by norm_num)]
    norm_num
  refine ⟨h2, ?_⟩
  rw [h2]
  intro h
  injection h with h
  norm_num at h

/-- Claim C12 as amended: for the swimming value of `main` (a 50 m pool swum 5
times, 90 minutes, 85 kg) `Swimming.meanSpeed` is `50 * 5 / 1000 / 1.5`, that is
1/6 km/h, and `Swimming.Calories` is approximately 323: it equals 323.00 when
rounded to two decimals. -/
theorem swimming_fixture :
    Swimming.meanSpeed mainSwimming = F64.fin (50 * 5 / 1000 / 1.5)
    ∧ Swimming.meanSpeed mainSwimming = F64.fin (1 / 6)
    ∧ F64.roundDecimals 2 (Swimming.Calories mainSwimming) = F64.fin 323 := by
  refine ⟨?_, mainSwimming_meanSpeed, ?_⟩
  · rw [mainSwimming_meanSpeed]
    norm_num
  · rw [mainSwimming_Calories]
    show F64.fin (roundDecimals 2 323) = _
    rw [roundDecimals_eq 2 _ 32300 (by norm_num) (by norm_num)]
    norm_num

/-- Claim C13: for the walking value of `main` (20000 steps of 0.65 m, 3 h 45
min) the `Distance` of the summary is 13 km and its `Speed` is `13 / 3.75`
km/h, which is 3.467 when rounded to three decimals. -/
theorem walking_fixture :
    (Walking.TrainingInfo mainWalking).Distance = F64.fin 13
    ∧ (Walking.TrainingInfo mainWalking).Speed = F64.fin (13 / 3.75)
    ∧ F64.roundDecimals 3 (Walking.TrainingInfo mainWalking).Speed = F64.fin 3.467 := by
  have hd : (Walking.TrainingInfo mainWalking).Distance = F64.fin 13 := by
    show mainWalking.toTraining.distance = _
    rw [Training.distance_eq]
    norm_num [mainWalking, LenStep]
  have hs : (Walking.TrainingInfo mainWalking).Speed = F64.fin (52 / 15) := by
    show mainWalking.toTraining.meanSpeed = _
    rw [Training.baseSpeed_eq]
    norm_num [mainWalking, LenStep, time.Minute, time.Hour]
  refine ⟨hd, ?_, ?_⟩
  · rw [hs]
    norm_num
  · rw [hs]
    show F64.fin (roundDecimals 3 (52 / 15)) = _
    rw [roundDecimals_eq 3 _ 3467 (by norm_num) (by norm_num)]
    norm_num

/-! ## Relations between the results -/

/-- With a non-zero duration the speed of the base summary times the hours is
its distance. -/
theorem Training.speed_mul_hours (t : Training) (h : t.Duration ≠ 0) :
    t.TrainingInfo.Speed * F64.fin ((t.Duration : ℚ) / 3600000000000)
      = t.TrainingInfo.Distance := by
  show t.meanSpeed * _ = t.distance
  have hq : (t.Duration : ℚ) ≠ 0 := by exact_mod_cast h
  rw [Training.baseSpeed_eq, if_neg h, Training.distance_eq, F64.fin_mul_fin]
  congr 1
  field_simp
  ring

/-- Claim C16: for every variant with a non-zero duration the summary returned
by `TrainingInfo` is self-consistent, its `Speed` times the duration in hours is
its `Distance`; for `Swimming` too, whatever `LengthPool` and `CountPool` are. -/
theorem summary_speed_times_hours (r : Running) (w : Walking) (s : Swimming)
    (hr : r.Duration ≠ 0) (hw : w.Duration ≠ 0) (hs : s.Duration ≠ 0) :
    (Running.TrainingInfo r).Speed * F64.fin ((r.Duration : ℚ) / 3600000000000)
      = (Running.TrainingInfo r).Distance
    ∧ (Walking.TrainingInfo w).Speed * F64.fin ((w.Duration : ℚ) / 3600000000000)
      = (Walking.TrainingInfo w).Distance
    ∧ (Swimming.TrainingInfo s).Speed * F64.fin ((s.Duration : ℚ) / 3600000000000)
      = (Swimming.TrainingInfo s).Distance :=
  ⟨r.toTraining.speed_mul_hours hr, w.toTraining.speed_mul_hours hw,
    s.toTraining.speed_mul_hours hs⟩

/-- Witness of C16: the three values of `main`. -/
theorem summary_speed_times_hours_witness :
    mainRunning.Duration ≠ 0 ∧ mainWalking.Duration ≠ 0 ∧ mainSwimming.Duration ≠ 0
    ∧ (Running.TrainingInfo mainRunning).Speed
        * F64.fin ((mainRunning.Duration : ℚ) / 3600000000000)
      = (Running.TrainingInfo mainRunning).Distance
    ∧ (Walking.TrainingInfo mainWalking).Speed
        * F64.fin ((mainWalking.Duration : ℚ) / 3600000000000)
      = (Walking.TrainingInfo mainWalking).Distance
    ∧ (Swimming.TrainingInfo mainSwimming).Speed
        * F64.fin ((mainSwimming.Duration : ℚ) / 3600000000000)
      = (Swimming.TrainingInfo mainSwimming).Distance :=
  have hr : mainRunning.Duration ≠ 0 := by norm_num [mainRunning, time.Minute]
  have hw : mainWalking.Duration ≠ 0 := by norm_num [mainWalking, time.Minute, time.Hour]
  have hs : mainSwimming.Duration ≠ 0 := by norm_num [mainSwimming, time.Minute]
  ⟨hr, hw, hs, summary_speed_times_hours mainRunning mainWalking mainSwimming hr hw hs⟩

/-- The distance and the base mean speed of non-negative measurements are
non-negative numbers. -/
theorem Training.geZero_of_nonNeg (t : Training) (h : t.NonNeg) :
    t.distance.geZero = true ∧ t.meanSpeed.geZero = true := by
  obtain ⟨hA, hL, hD, _⟩ := h
  have hA2 : (0 : ℚ) ≤ (t.Action : ℚ) := by exact_mod_cast hA
  have hD2 : (0 : ℚ) ≤ (t.Duration : ℚ) := by exact_mod_cast hD
  constructor
  · rw [Training.distance_eq]
    simp only [F64.geZero, decide_eq_true_eq]
    positivity
  · rw [Training.baseSpeed_eq]
    simp only [F64.geZero, decide_eq_true_eq]
    split_ifs
    · exact le_refl 0
    · positivity

/-- Counterexample to C17: the swimming value of `main` with a zero duration
and the weight `+Inf` has only non-negative inputs (`+Inf >= 0` holds), and its
calories are `NaN`, which is not non-negative. -/
theorem results_nonneg_counterexample :
    (0 ≤ heavySwimming.Action ∧ heavySwimming.LenStep.geZero = true
      ∧ 0 ≤ heavySwimming.Duration ∧ heavySwimming.Weight.geZero = true
      ∧ 0 ≤ heavySwimming.LengthPool ∧ 0 ≤ heavySwimming.CountPool)
    ∧ Raw.Swimming.Calories heavySwimming = F64.nan
    ∧ (Raw.Swimming.Calories heavySwimming).geZero = false := by
  refine ⟨⟨by decide, ?_, by decide, rfl, by decide, by decide⟩, heavySwimming_Calories, ?_⟩
  · show decide ((0 : ℚ) ≤ SwimmingLenStep) = true
    rw [decide_eq_true_eq]
    norm_num [SwimmingLenStep]
  · rw [heavySwimming_Calories]
    rfl

/-- Claim C17 as amended: for every variant whose inputs are finite and
non-negative (and whose height is positive, for `Walking`) the calories, the
distance and the mean speed are non-negative in exact arithmetic, that is as
long as no intermediate result overflows and `Height / 100` is not rounded to
zero; for `Swimming` both the base mean speed and its own. -/
theorem results_nonneg (r : Running) (w : Walking) (s : Swimming)
    (hr : r.toTraining.NonNeg) (hw : w.toTraining.NonNeg) (hH : 0 < w.Height)
    (hs : s.toTraining.NonNeg) (hL : 0 ≤ s.LengthPool) (hC : 0 ≤ s.CountPool) :
    ((Running.Calories r).geZero = true ∧ r.toTraining.distance.geZero = true
      ∧ r.toTraining.meanSpeed.geZero = true)
    ∧ ((Walking.Calories w).geZero = true ∧ w.toTraining.distance.geZero = true
      ∧ w.toTraining.meanSpeed.geZero = true)
    ∧ ((Swimming.Calories s).geZero = true ∧ s.toTraining.distance.geZero = true
      ∧ s.toTraining.meanSpeed.geZero = true ∧ (Swimming.meanSpeed s).geZero = true) := by
  have cast0 : ∀ n : Int, 0 ≤ n → (0 : ℚ) ≤ (n : ℚ) := fun n h => by exact_mod_cast h
  refine ⟨⟨?_, r.toTraining.geZero_of_nonNeg hr⟩, ⟨?_, w.toTraining.geZero_of_nonNeg hw⟩,
    ?_, (s.toTraining.geZero_of_nonNeg hs).1, (s.toTraining.geZero_of_nonNeg hs).2, ?_⟩
  · obtain ⟨hA, hS, hD, hW⟩ := hr
    have hA2 := cast0 _ hA
    have hD2 := cast0 _ hD
    rw [Running.runCalories_eq]
    simp only [F64.geZero, decide_eq_true_eq]
    split_ifs
    · exact le_refl 0
    · have h1 : (0 : ℚ) ≤ (1.79 : ℚ) := by norm_num
      positivity
  · obtain ⟨hA, hS, hD, hW⟩ := hw
    have hA2 := cast0 _ hA
    have hD2 := cast0 _ hD
    rw [Walking.walkCalories_eq w (ne_of_gt hH)]
    simp only [F64.geZero, decide_eq_true_eq]
    have h1 : (0 : ℚ) ≤ (0.035 : ℚ) := by norm_num
    have h2 : (0 : ℚ) ≤ (0.029 : ℚ) := by norm_num
    have h3 : (0 : ℚ) ≤ w.Height / 100 := by positivity
    apply mul_nonneg
    · apply add_nonneg
      · exact mul_nonneg h1 hW
      · exact mul_nonneg (mul_nonneg (div_nonneg (sq_nonneg _) h3) h2) hW
    · positivity
  · obtain ⟨hA, hS, hD, hW⟩ := hs
    have hD2 := cast0 _ hD
    have hL2 := cast0 _ hL
    have hC2 := cast0 _ hC
    rw [Swimming.swimCalories_eq]
    simp only [F64.geZero, decide_eq_true_eq]
    have h1 : (0 : ℚ) ≤ (1.1 : ℚ) := by norm_num
    have h0 : (0 : ℚ) ≤ (if s.Duration = 0 then (0 : ℚ)
        else (s.LengthPool : ℚ) * s.CountPool / 1000 / ((s.Duration : ℚ) / 3600000000000)) := by
      split_ifs
      · exact le_refl 0
      · positivity
    have h5 : (0 : ℚ) ≤ (s.Duration : ℚ) / 3600000000000 := by positivity
    exact mul_nonneg (mul_nonneg (mul_nonneg (add_nonneg h0 h1) (by norm_num)) hW) h5
  · have hL2 := cast0 _ hL
    have hC2 := cast0 _ hC
    have hD2 := cast0 _ hs.2.2.1
    rw [Swimming.poolSpeed_eq]
    simp only [F64.geZero, decide_eq_true_eq]
    split_ifs
    · exact le_refl 0
    · positivity

/-- Witness of C17 as amended: the three values of `main`. -/
theorem results_nonneg_witness :
    (mainRunning.toTraining.NonNeg ∧ mainWalking.toTraining.NonNeg
      ∧ 0 < mainWalking.Height ∧ mainSwimming.toTraining.NonNeg
      ∧ 0 ≤ mainSwimming.LengthPool ∧ 0 ≤ mainSwimming.CountPool)
    ∧ (Running.Calories mainRunning).geZero = true
    ∧ (Walking.Calories mainWalking).geZero = true
    ∧ (Swimming.Calories mainSwimming).geZero = true :=
  have hr : mainRunning.toTraining.NonNeg := by
    norm_num [Training.NonNeg, mainRunning, LenStep, time.Minute]
  have hw : mainWalking.toTraining.NonNeg := by
    norm_num [Training.NonNeg, mainWalking, LenStep, time.Minute, time.Hour]
  have hH : 0 < mainWalking.Height := by norm_num [mainWalking]
  have hs : mainSwimming.toTraining.NonNeg := by
    norm_num [Training.NonNeg, mainSwimming, SwimmingLenStep, time.Minute]
  have hL : 0 ≤ mainSwimming.LengthPool := by norm_num [mainSwimming]
  have hC : 0 ≤ mainSwimming.CountPool := by norm_num [mainSwimming]
  have h := results_nonneg mainRunning mainWalking mainSwimming hr hw hH hs hL hC
  ⟨⟨hr, hw, hH, hs, hL, hC⟩, h.1.1, h.2.1.1, h.2.2.1⟩

/-- Claim C18: changing only `Action` and `LenStep` of a `Swimming` value leaves
`Swimming.Calories` unchanged, and changing only `LengthPool` and `CountPool`
leaves the summary of `Swimming.TrainingInfo` unchanged. -/
theorem swimming_independence (s : Swimming) (action : Int) (lenStep : ℚ)
    (lengthPool countPool : Int) :
    Swimming.Calories { s with Action := action, LenStep := lenStep } = Swimming.Calories s
    ∧ Swimming.TrainingInfo { s with LengthPool := lengthPool, CountPool := countPool }
      = Swimming.TrainingInfo s :=
  ⟨rfl, rfl⟩

/-! ## Rendering of numbers and of the summary -/

theorem digitChar_isDigit (m : Nat) (h : m < 10) : (Nat.digitChar m).isDigit = true := by
  interval_cases m <;> rfl

theorem toDigitsCore_isDigit (fuel : Nat) : ∀ (n : Nat) (ds : List Char),
    (∀ c ∈ ds, c.isDigit = true) →
    ∀ c ∈ Nat.toDigitsCore 10 fuel n ds, c.isDigit = true := by
  induction fuel with
  | zero => intro n ds h; simpa [Nat.toDigitsCore] using h
  | succ fuel ih =>
    intro n ds h
    have hd : (Nat.digitChar (n % 10)).isDigit = true :=
      digitChar_isDigit _ (Nat.mod_lt _ (by norm_num))
    have hds : ∀ c ∈ Nat.digitChar (n % 10) :: ds, c.isDigit = true := by
      intro c hc
      rcases List.mem_cons.mp hc with hc | hc
      · rw [hc]; exact hd
      · exact h c hc
    simp only [Nat.toDigitsCore]
    split_ifs
    · exact hds
    · exact ih _ _ hds

theorem repr_isDigit (n : Nat) : ∀ c ∈ (Nat.repr n).data, c.isDigit = true :=
  toDigitsCore_isDigit _ _ _ (by simp)

theorem repr_ne_nil (n : Nat) : (Nat.repr n).data ≠ [] := by
  show Nat.toDigitsCore 10 (n + 1) n [] ≠ []
  simp only [Nat.toDigitsCore]
  split_ifs
  · simp
  · intro h
    have := Nat.toDigitsCore_lens_eq 10 n (n / 10) (Nat.digitChar (n % 10)) []
    rw [h] at this
    simp at this

theorem fmtF2_fin_data (q : ℚ) :
    (fmtF2 (F64.fin q)).data
      = (if q < 0 then ['-'] else [])
        ++ (Nat.repr ((roundHalfEven (|q| * 100)).toNat / 100)).data
        ++ ['.', Nat.digitChar ((roundHalfEven (|q| * 100)).toNat % 100 / 10 % 10),
            Nat.digitChar ((roundHalfEven (|q| * 100)).toNat % 100 % 10)] := by
  unfold fmtF2 twoDigits
  by_cases h : q < 0 <;> simp [h, String.data_append]


theorem isDigit_ne_minus (c : Char) (h : c.isDigit = true) : c ≠ '-' := by
  intro hc
  rw [hc] at h
  exact absurd h (by decide)

theorem isTwoDecimal_of_data (s : String) (neg : Bool) (ip : List Char) (a b : Char)
    (hs : s.data = (if neg then ['-'] else []) ++ ip ++ ['.', a, b])
    (hip : ip ≠ []) (hall : ∀ c ∈ ip, c.isDigit = true)
    (ha : a.isDigit = true) (hb : b.isDigit = true) :
    isTwoDecimal s = true := by
  have hrev : (ip ++ ['.', a, b]).reverse = b :: a :: '.' :: ip.reverse := by simp
  have hfin : (match (ip ++ ['.', a, b]).reverse with
      | b :: a :: '.' :: ip => b.isDigit && a.isDigit && !ip.isEmpty && ip.all Char.isDigit
      | _ => false) = true := by
    rw [hrev]
    simp only [ha, hb, Bool.true_and, Bool.and_eq_true, Bool.not_eq_true', List.all_eq_true]
    constructor
    · cases hr : ip.reverse with
      | nil => exact absurd (List.reverse_eq_nil_iff.mp hr) hip
      | cons x xs => rfl
    · intro c hc
      exact hall c (List.mem_reverse.mp hc)
  unfold isTwoDecimal
  cases neg with
  | true =>
    simp only [if_true, List.singleton_append, List.cons_append] at hs
    rw [hs]
    exact hfin
  | false =>
    simp only [Bool.false_eq_true, if_false, List.nil_append] at hs
    rw [hs]
    cases ip with
    | nil => exact absurd rfl hip
    | cons c cs =>
      have hc : c ≠ '-' := isDigit_ne_minus c (hall c (List.mem_cons_self _ _))
      have hm : (match (c :: cs ++ ['.', a, b] : List Char) with
          | '-' :: rest => rest
          | cs => cs) = c :: cs ++ ['.', a, b] := by
        split
        · rename_i heq
          injection heq with h1 _
          exact absurd h1 hc
        · rfl
      simp only [hm]
      exact hfin


theorem fmtF2_fin_isTwoDecimal (q : ℚ) : isTwoDecimal (fmtF2 (F64.fin q)) = true :=
  isTwoDecimal_of_data _ (decide (q < 0))
    (Nat.repr ((roundHalfEven (|q| * 100)).toNat / 100)).data
    (Nat.digitChar ((roundHalfEven (|q| * 100)).toNat % 100 / 10 % 10))
    (Nat.digitChar ((roundHalfEven (|q| * 100)).toNat % 100 % 10))
    (by rw [fmtF2_fin_data]; simp)
    (repr_ne_nil _) (repr_isDigit _)
    (digitChar_isDigit _ (Nat.mod_lt _ (by norm_num)))
    (digitChar_isDigit _ (Nat.mod_lt _ (by norm_num)))

theorem isDigit_ne_newline (c : Char) (h : c.isDigit = true) : c ≠ '\n' := by
  intro hc
  rw [hc] at h
  exact absurd h (by decide)

theorem fmtF2_no_newline (x : F64) : '\n' ∉ (fmtF2 x).data := by
  cases x with
  | fin q =>
    rw [fmtF2_fin_data]
    intro h
    simp only [List.mem_append, List.mem_cons, List.mem_singleton] at h
    rcases h with (h | h) | h
    · split_ifs at h
      · simp at h
      · simp at h
    · exact isDigit_ne_newline _ (repr_isDigit _ _ h) rfl
    · rcases h with h | h | h | h
      · exact absurd h (by decide)
      · exact isDigit_ne_newline _ (digitChar_isDigit _ (Nat.mod_lt _ (by norm_num))) h.symm
      · exact isDigit_ne_newline _ (digitChar_isDigit _ (Nat.mod_lt _ (by norm_num))) h.symm
      · simp at h
  | posInf => decide
  | negInf => decide
  | nan => decide


theorem fmtF2_of_nonneg (q : ℚ) (z : Nat) (hq : 0 ≤ q) (h1 : (z : ℚ) - 1 / 2 < q * 100)
    (h2 : q * 100 < (z : ℚ) + 1 / 2) :
    fmtF2 (F64.fin q) = Nat.repr (z / 100) ++ "." ++ twoDigits (z % 100) := by
  have hr : roundHalfEven (|q| * 100) = (z : Int) := by
    rw [abs_of_nonneg hq]
    exact roundHalfEven_eq _ z (by exact_mod_cast h1) (by exact_mod_cast h2)
  unfold fmtF2
  simp only [hr, Int.toNat_ofNat, if_neg (not_lt.mpr hq)]
  rfl

theorem String_eq_lines (fmtV : ℚ → String) (i : InfoMessage) :
    InfoMessage.String fmtV i
      = (reportLines fmtV i).foldl (fun acc l => acc ++ l ++ "\n") "" := by
  apply String.ext
  simp only [InfoMessage.String, reportLines, List.foldl, String.data_append, List.append_assoc]
  rfl

theorem head_ru (fmtV : ℚ → String) (i : InfoMessage) :
    (InfoMessage.String fmtV i).data.head? = some 'Т' := by
  simp only [InfoMessage.String, String.data_append, List.append_assoc]
  rfl

theorem head_en (fmtV : ℚ → String) (i : InfoMessage) :
    (specString fmtV i).data.head? = some 'T' := by
  simp only [specString, String.data_append, List.append_assoc]
  rfl

theorem reportLines_no_newline (fmtV : ℚ → String) (i : InfoMessage)
    (hT : '\n' ∉ i.TrainingType.data) (hV : ∀ q, '\n' ∉ (fmtV q).data) :
    ∀ l ∈ reportLines fmtV i, '\n' ∉ l.data := by
  intro l hl
  simp only [reportLines, List.mem_cons, List.mem_singleton, List.not_mem_nil, or_false] at hl
  rcases hl with rfl | rfl | rfl | rfl | rfl <;>
    simp only [String.data_append, List.mem_append, not_or]
  · exact ⟨by decide, hT⟩
  · exact ⟨⟨by decide, hV _⟩, by decide⟩
  · exact ⟨⟨by decide, fmtF2_no_newline _⟩, by decide⟩
  · exact ⟨⟨by decide, fmtF2_no_newline _⟩, by decide⟩
  · exact ⟨by decide, fmtF2_no_newline _⟩

theorem String_count_newline (fmtV : ℚ → String) (i : InfoMessage)
    (hT : '\n' ∉ i.TrainingType.data) (hV : ∀ q, '\n' ∉ (fmtV q).data) :
    (InfoMessage.String fmtV i).data.count '\n' = 5 := by
  simp only [InfoMessage.String, String.data_append, List.count_append]
  rw [List.count_eq_zero_of_not_mem hT, List.count_eq_zero_of_not_mem (hV _),
    List.count_eq_zero_of_not_mem (fmtF2_no_newline i.Distance),
    List.count_eq_zero_of_not_mem (fmtF2_no_newline i.Speed),
    List.count_eq_zero_of_not_mem (fmtF2_no_newline i.Calories)]
  rfl

theorem stoppedFlatWalking_Calories : Walking.Calories stoppedFlatWalking = F64.nan := by
  have hC : CmInM ≠ 0 := by norm_num [CmInM]
  have hd : stoppedFlatWalking.Duration = 0 := rfl
  have hH : stoppedFlatWalking.Height = 0 := rfl
  unfold Walking.Calories
  simp only [if_neg hC]
  rw [Training.baseSpeed_eq, if_pos hd, hH, F64.fin_div_fin _ _ hC]
  simp only [F64.fin_mul_fin, F64.Pow_fin_two]
  norm_num [F64.zero_div_zero, F64.nan_mul, F64.add_nan]

/-! ## The layout of the report -/

/-- Counterexample to C14: the summary that `ReadData` renders for the walking
value of `main` with a zero duration and a zero height has `Calories = NaN`,
which `%.2f` renders as `NaN`, without a decimal point or decimals. -/
theorem two_decimals_counterexample :
    stoppedFlatInfo.Calories = F64.nan
    ∧ fmtF2 stoppedFlatInfo.Calories = "NaN"
    ∧ isTwoDecimal (fmtF2 stoppedFlatInfo.Calories) = false := by
  have h : stoppedFlatInfo.Calories = F64.nan := stoppedFlatWalking_Calories
  rw [h]
  exact ⟨rfl, rfl, by decide⟩

/-- Claim C14 as amended: for every summary whose `Distance`, `Speed` and
`Calories` are finite numbers, `InfoMessage.String` renders each of the three
with exactly two digits after the decimal point, whatever the precision of the
value (a speed of exactly 5 is rendered as `5.00`), and renders the duration as
its total minutes, which need not be whole (ninety seconds are 3/2 minutes). -/
theorem string_two_decimals (fmtV : ℚ → String) (i : InfoMessage) (d v c : ℚ)
    (hd : i.Distance = F64.fin d) (hv : i.Speed = F64.fin v) (hc : i.Calories = F64.fin c) :
    InfoMessage.String fmtV i
      = "Тип тренировки: " ++ i.TrainingType ++
        "\nДлительность: " ++ fmtV ((i.Duration : ℚ) / 60000000000) ++
        " мин\nДистанция: " ++ fmtF2 (F64.fin d) ++
        " км.\nСр. скорость: " ++ fmtF2 (F64.fin v) ++
        " км/ч\nПотрачено ккал: " ++ fmtF2 (F64.fin c) ++ "\n"
    ∧ isTwoDecimal (fmtF2 (F64.fin d)) = true
    ∧ isTwoDecimal (fmtF2 (F64.fin v)) = true
    ∧ isTwoDecimal (fmtF2 (F64.fin c)) = true
    ∧ fmtF2 (F64.fin 5) = "5.00"
    ∧ time.Duration.Minutes ninetySeconds = 3 / 2 := by
  refine ⟨?_, fmtF2_fin_isTwoDecimal d, fmtF2_fin_isTwoDecimal v, fmtF2_fin_isTwoDecimal c,
    ?_, ?_⟩
  · unfold InfoMessage.String
    rw [hd, hv, hc, time.Minutes_eq]
  · rw [fmtF2_of_nonneg 5 500 (by norm_num) (by norm_num) (by norm_num)]
    rfl
  · rw [time.Minutes_eq]
    norm_num [ninetySeconds]

/-- Witness of C14 as amended: the summary rendered for the running value of
`main`. -/
theorem string_two_decimals_witness :
    mainRunningInfo.Distance = F64.fin (13 / 4)
    ∧ mainRunningInfo.Speed = F64.fin (13 / 2)
    ∧ mainRunningInfo.Calories = F64.fin (605829 / 2000)
    ∧ isTwoDecimal (fmtF2 (F64.fin (13 / 4))) = true
    ∧ isTwoDecimal (fmtF2 (F64.fin (13 / 2))) = true
    ∧ isTwoDecimal (fmtF2 (F64.fin (605829 / 2000))) = true :=
  have hd : mainRunningInfo.Distance = F64.fin (13 / 4) := by
    show mainRunning.toTraining.distance = _
    rw [Training.distance_eq]
    norm_num [mainRunning, LenStep]
  have hv : mainRunningInfo.Speed = F64.fin (13 / 2) := by
    show mainRunning.toTraining.meanSpeed = _
    rw [Training.baseSpeed_eq]
    norm_num [mainRunning, LenStep, time.Minute]
  have hc : mainRunningInfo.Calories = F64.fin (605829 / 2000) := mainRunning_Calories
  have h := string_two_decimals fmtWholeMinutes mainRunningInfo _ _ _ hd hv hc
  ⟨hd, hv, hc, h.2.1, h.2.2.1, h.2.2.2.1⟩

/-- Counterexample to C15: the report of the running value of `main` is not the
text with the labels of the specification; its first character is the Cyrillic
letter of `Тип тренировки`, not the Latin `T` of `Training type`. -/
theorem five_lines_counterexample :
    '\n' ∉ mainRunningInfo.TrainingType.data
    ∧ (InfoMessage.String fmtWholeMinutes mainRunningInfo).data.head? = some 'Т'
    ∧ (specString fmtWholeMinutes mainRunningInfo).data.head? = some 'T'
    ∧ InfoMessage.String fmtWholeMinutes mainRunningInfo
      ≠ specString fmtWholeMinutes mainRunningInfo := by
  refine ⟨by decide, head_ru _ _, head_en _ _, ?_⟩
  intro h
  have h1 := head_ru fmtWholeMinutes mainRunningInfo
  rw [h, head_en] at h1
  exact absurd h1 (by decide)

/-- Claim C15 as amended: for every summary whose `TrainingType` contains no
newline, and a rendering of the minutes that contains none, `InfoMessage.String`
(and hence `ReadData`) returns exactly five lines, each ended by a newline, in
this order and with the labels of the code: `Тип тренировки: <trainingType>`,
`Длительность: <minutes> мин`, `Дистанция: <distance> км.`,
`Ср. скорость: <speed> км/ч`, `Потрачено ккал: <calories>`. -/
theorem string_five_lines (fmtV : ℚ → String) (i : InfoMessage)
    (hT : '\n' ∉ i.TrainingType.data) (hV : ∀ q, '\n' ∉ (fmtV q).data) :
    InfoMessage.String fmtV i
      = ("Тип тренировки: " ++ i.TrainingType) ++ "\n"
        ++ ("Длительность: " ++ fmtV (time.Duration.Minutes i.Duration) ++ " мин") ++ "\n"
        ++ ("Дистанция: " ++ fmtF2 i.Distance ++ " км.") ++ "\n"
        ++ ("Ср. скорость: " ++ fmtF2 i.Speed ++ " км/ч") ++ "\n"
        ++ ("Потрачено ккал: " ++ fmtF2 i.Calories) ++ "\n"
    ∧ '\n' ∉ ("Тип тренировки: " ++ i.TrainingType).data
    ∧ '\n' ∉ ("Длительность: " ++ fmtV (time.Duration.Minutes i.Duration) ++ " мин").data
    ∧ '\n' ∉ ("Дистанция: " ++ fmtF2 i.Distance ++ " км.").data
    ∧ '\n' ∉ ("Ср. скорость: " ++ fmtF2 i.Speed ++ " км/ч").data
    ∧ '\n' ∉ ("Потрачено ккал: " ++ fmtF2 i.Calories).data
    ∧ (InfoMessage.String fmtV i).data.count '\n' = 5
    ∧ (∀ t : CaloriesCalculator, ReadData fmtV t
        = InfoMessage.String fmtV { t.TrainingInfo with Calories := t.Calories }) := by
  have hl := reportLines_no_newline fmtV i hT hV
  have hm : ∀ k : Fin 5, (reportLines fmtV i).get ⟨k.val, k.isLt⟩ ∈ reportLines fmtV i :=
    fun k => List.get_mem _ _ _
  refine ⟨?_, hl _ (hm 0), hl _ (hm 1), hl _ (hm 2), hl _ (hm 3), hl _ (hm 4),
    String_count_newline fmtV i hT hV, fun _ => rfl⟩
  rw [String_eq_lines]
  simp only [reportLines, List.foldl]
  rfl

/-- Witness of C15 as amended: the summary rendered for the running value of
`main`, the minutes rendered by their whole part. -/
theorem string_five_lines_witness :
    '\n' ∉ mainRunningInfo.TrainingType.data
    ∧ (∀ q, '\n' ∉ (fmtWholeMinutes q).data)
    ∧ (InfoMessage.String fmtWholeMinutes mainRunningInfo).data.count '\n' = 5 :=
  have hT : '\n' ∉ mainRunningInfo.TrainingType.data := by decide
  have hV : ∀ q, '\n' ∉ (fmtWholeMinutes q).data := fun q h =>
    isDigit_ne_newline _ (repr_isDigit _ _ h) rfl
  ⟨hT, hV, (string_five_lines fmtWholeMinutes mainRunningInfo hT hV).2.2.2.2.2.2.1⟩

end Fitness
